import Mathlib

set_option autoImplicit false

/-!
Verification development for the hcg-ai-content-generator pipeline core:
a shallow embedding of the orchestration, output-normalization and
record-store code, together with theorems checking the specification's
claims against it.
-/

/-- Shallow embedding of the Python/JSON values the program manipulates:
results of json.loads, DynamoDB attribute values, and the Ellipsis object
that metadata_service.py passes to ServiceError. Dict keys are strings,
since every dict in scope comes from a JSON object or a literal
string-keyed dict. -/
inductive PyVal where
  | PNone
  | PBool (b : Bool)
  | PInt (n : Int)
  | PStr (s : String)
  | PList (l : List PyVal)
  | PDict (d : List (String × PyVal))
  | PEllipsis
deriving Repr

/-- Python truthiness of a value (the `if not x` tests in the sources). -/
def pyTruthy : PyVal → Bool
  | .PNone => false
  | .PBool b => b
  | .PInt n => n != 0
  | .PStr s => s != ""
  | .PList l => !l.isEmpty
  | .PDict d => !d.isEmpty
  | .PEllipsis => true

mutual

/-- Python equality on embedded values (the `!=` test of the ownership
check). Dict comparison is order-sensitive here; every comparison the
embedded code performs is on strings, where this coincides with Python. -/
def pyEq : PyVal → PyVal → Bool
  | .PNone, .PNone => true
  | .PBool a, .PBool b => a == b
  | .PInt a, .PInt b => a == b
  | .PStr a, .PStr b => a == b
  | .PEllipsis, .PEllipsis => true
  | .PList a, .PList b => pyEqList a b
  | .PDict a, .PDict b => pyEqDict a b
  | _, _ => false

def pyEqList : List PyVal → List PyVal → Bool
  | [], [] => true
  | a :: l1, b :: l2 => pyEq a b && pyEqList l1 l2
  | _, _ => false

def pyEqDict : List (String × PyVal) → List (String × PyVal) → Bool
  | [], [] => true
  | (k1, v1) :: l1, (k2, v2) :: l2 => k1 == k2 && pyEq v1 v2 && pyEqDict l1 l2
  | _, _ => false

end

/-- A Python dict with string keys, in insertion order. -/
abbrev PyDict := List (String × PyVal)

/-- Python `d.get(k)` (first matching key; keys are unique in practice). -/
def dictGet (d : PyDict) (k : String) : Option PyVal :=
  match d with
  | [] => none
  | (k1, v) :: rest => if k1 = k then some v else dictGet rest k

/-- Python `k in d`. -/
def hasKey (d : PyDict) (k : String) : Bool :=
  (dictGet d k).isSome

/-- Python `d[k] = v`: replace the value at an existing key in place,
otherwise append the pair at the end. -/
def dictSet (d : PyDict) (k : String) (v : PyVal) : PyDict :=
  match d with
  | [] => [(k, v)]
  | (k1, v1) :: rest =>
    if k1 = k then (k, v) :: rest else (k1, v1) :: dictSet rest k v

theorem dictGet_dictSet_self (d : PyDict) (k : String) (v : PyVal) :
    dictGet (dictSet d k v) k = some v := by
  induction d with
  | nil => simp [dictSet, dictGet]
  | cons kv rest ih =>
    obtain ⟨k1, v1⟩ := kv
    by_cases h : k1 = k
    · simp [dictSet, dictGet, h]
    · simp [dictSet, dictGet, h, ih]

theorem dictGet_dictSet_ne (d : PyDict) (k k2 : String) (v : PyVal)
    (h : k2 ≠ k) : dictGet (dictSet d k v) k2 = dictGet d k2 := by
  have hk : ¬ k = k2 := fun h2 => h h2.symm
  induction d with
  | nil => simp [dictSet, dictGet, hk]
  | cons kv rest ih =>
    obtain ⟨k1, v1⟩ := kv
    by_cases h1 : k1 = k
    · subst h1
      simp [dictSet, dictGet, hk]
    · simp only [dictSet, if_neg h1, dictGet]
      by_cases h2 : k1 = k2 <;> simp [h2, ih]

/-! ### Character-level helpers for the slug sanitizers -/

/-- Python `str.lower`, on the ASCII range (every slug and example string
in scope is ASCII). -/
def pyLowerChar (c : Char) : Char :=
  if 'A' ≤ c ∧ c ≤ 'Z' then Char.ofNat (c.toNat + 32) else c

/-- The character class kept by `re.sub(r'[^a-z0-9-]+', '', s)` in
src/agents/image_slug_openai.py line 84. -/
def slugKeep (c : Char) : Bool :=
  (decide ('a' ≤ c) && decide (c ≤ 'z')) ||
  (decide ('0' ≤ c) && decide (c ≤ '9')) || c == '-'

/-- Regex replacement of every hyphen run by one hyphen, the
`re.sub(r'-+', '-', s)` step. -/
def collapseHyphens : List Char → List Char
  | [] => []
  | [c] => [c]
  | c :: c2 :: rest =>
    if c == '-' && c2 == '-' then collapseHyphens (c2 :: rest)
    else c :: collapseHyphens (c2 :: rest)

/-- Python `str.strip('-')`. -/
def stripHyphens (l : List Char) : List Char :=
  ((l.dropWhile (· == '-')).reverse.dropWhile (· == '-')).reverse

/-- The slug-cleanup loop body of generate_slugs_from_prompts
(src/agents/image_slug_openai.py, lines 84-86): lowercase, delete every
character outside [a-z0-9-], collapse hyphen runs, strip leading and
trailing hyphens; if the result is empty fall back to image-i for the
position i of the slug in the list. -/
def cleanSlug (slug : String) (i : Nat) : String :=
  let step1 := (slug.data.map pyLowerChar).filter slugKeep
  let step2 := stripHyphens (collapseHyphens step1)
  if step2.isEmpty then "image-" ++ toString i else String.mk step2

/-- No two adjacent hyphens occur in the character list. -/
def noAdjacentHyphens : List Char → Bool
  | [] => true
  | [_] => true
  | c :: c2 :: rest =>
    !(c == '-' && c2 == '-') && noAdjacentHyphens (c2 :: rest)

/-- An already-normalized slug in the sense of the spec: non-empty, only
lowercase alphanumerics and hyphens, no hyphen runs, and no leading or
trailing hyphen. -/
def isNormalizedSlug (s : String) : Bool :=
  !s.data.isEmpty && s.data.all slugKeep && noAdjacentHyphens s.data &&
  !(s.data.head? == some '-') && !(s.data.getLast? == some '-')

theorem pyLowerChar_of_slugKeep (c : Char) (h : slugKeep c = true) :
    pyLowerChar c = c := by
  unfold pyLowerChar
  rw [if_neg]
  rintro ⟨h1, h2⟩
  unfold slugKeep at h
  simp only [Bool.or_eq_true, Bool.and_eq_true, decide_eq_true_eq,
    beq_iff_eq] at h
  rcases h with (⟨ha, _⟩ | ⟨_, h9⟩) | hh
  · exact absurd (le_trans ha h2) (by decide)
  · exact absurd (le_trans h1 h9) (by decide)
  · subst hh; exact absurd h1 (by decide)

theorem collapseHyphens_of_noAdjacent (l : List Char)
    (h : noAdjacentHyphens l = true) : collapseHyphens l = l := by
  induction l with
  | nil => rfl
  | cons c rest ih =>
    cases rest with
    | nil => rfl
    | cons c2 rest2 =>
      unfold noAdjacentHyphens at h
      simp only [Bool.and_eq_true, Bool.not_eq_true'] at h
      unfold collapseHyphens
      rw [h.1, if_neg (by simp)]
      rw [ih h.2]

theorem dropWhile_hyphen_of_head (l : List Char)
    (h : ¬ l.head? = some '-') : l.dropWhile (· == '-') = l := by
  cases l with
  | nil => rfl
  | cons c rest =>
    have hc : ¬ c = '-' := by
      intro hh; exact h (by simp [hh])
    simp [List.dropWhile_cons, hc]

theorem stripHyphens_of_normalized (l : List Char)
    (h1 : ¬ l.head? = some '-') (h2 : ¬ l.getLast? = some '-') :
    stripHyphens l = l := by
  unfold stripHyphens
  rw [dropWhile_hyphen_of_head l h1]
  rw [dropWhile_hyphen_of_head l.reverse (by
    rw [List.head?_reverse]; exact h2)]
  exact List.reverse_reverse l

/-- Helper: a list all of whose characters are kept is unchanged by the
lowercase-then-filter steps of the sanitizer. -/
theorem map_filter_of_slugKeep (l : List Char) (h : l.all slugKeep = true) :
    (l.map pyLowerChar).filter slugKeep = l := by
  have hmap : l.map pyLowerChar = l := by
    induction l with
    | nil => rfl
    | cons c rest ih =>
      simp only [List.all_cons, Bool.and_eq_true] at h
      simp [pyLowerChar_of_slugKeep c h.1, ih h.2]
  rw [hmap]
  rw [List.filter_eq_self]
  intro a ha
  exact (List.all_eq_true.mp h) a ha

/-- C9: slug sanitization is idempotent on already-normalized slugs: a
non-empty string of lowercase alphanumerics and hyphens with no hyphen
runs and no leading or trailing hyphen is returned unchanged by the
cleanup of generate_slugs_from_prompts. -/
theorem cleanSlug_idempotent (s : String) (i : Nat)
    (h : isNormalizedSlug s = true) : cleanSlug s i = s := by
  unfold isNormalizedSlug at h
  simp only [Bool.and_eq_true, Bool.not_eq_true'] at h
  obtain ⟨⟨⟨⟨hne, hall⟩, hadj⟩, hhead⟩, hlast⟩ := h
  have h1 : (s.data.map pyLowerChar).filter slugKeep = s.data :=
    map_filter_of_slugKeep s.data hall
  have h2 : collapseHyphens s.data = s.data :=
    collapseHyphens_of_noAdjacent s.data hadj
  have h3 : stripHyphens s.data = s.data := by
    refine stripHyphens_of_normalized s.data ?_ ?_
    · intro hx
      rw [hx] at hhead
      simp at hhead
    · intro hx
      rw [hx] at hlast
      simp at hlast
  unfold cleanSlug
  simp only [h1, h2, h3]
  rw [if_neg (by rw [hne]; exact Bool.false_ne_true)]

/-- C9 witness: the normalized slug a-beautiful-day is returned unchanged. -/
theorem cleanSlug_idempotent_witness :
    isNormalizedSlug "a-beautiful-day" = true ∧
    cleanSlug "a-beautiful-day" 7 = "a-beautiful-day" :=
  ⟨by decide, cleanSlug_idempotent "a-beautiful-day" 7 (by decide)⟩

/-- C2 counterexample: the sanitizer deletes characters outside [a-z0-9-],
so the spaces of "A Beautiful Day!!" are removed, not turned into hyphens:
the output is "abeautifulday", not the claimed "a-beautiful-day". -/
theorem cleanSlug_spaces_counterexample :
    cleanSlug "A Beautiful Day!!" 0 = "abeautifulday" ∧
    cleanSlug "A Beautiful Day!!" 0 ≠ "a-beautiful-day" := by
  constructor
  · rfl
  · decide

/-- C2 amended: slug sanitization lowercases, strips every character
outside [a-z0-9-] (so interior spaces are deleted, not hyphenated),
collapses hyphen runs, trims boundary hyphens, and falls back to image-i
on an empty result: "A Beautiful Day!!" gives "abeautifulday", and ""
at position 2 gives "image-2". -/
theorem cleanSlug_examples :
    cleanSlug "A Beautiful Day!!" 0 = "abeautifulday" ∧
    cleanSlug "" 2 = "image-2" := by
  exact ⟨rfl, rfl⟩

/-! ### Output normalizer of generate_image_prompts_and_slugs -/

/-- Python `s.split('-')`. -/
def splitHyphen : List Char → List (List Char)
  | [] => [[]]
  | c :: rest =>
    if c == '-' then [] :: splitHyphen rest
    else
      match splitHyphen rest with
      | [] => [[c]]
      | g :: gs => (c :: g) :: gs

/-- Python `'-'.join(groups)`. -/
def joinHyphen : List (List Char) → List Char
  | [] => []
  | [g] => g
  | g :: g2 :: gs => g ++ '-' :: joinHyphen (g2 :: gs)

theorem splitHyphen_ne_nil (l : List Char) : splitHyphen l ≠ [] := by
  cases l with
  | nil => simp [splitHyphen]
  | cons c rest =>
    unfold splitHyphen
    by_cases h : c == '-'
    · simp [h]
    · simp only [h]
      cases splitHyphen rest <;> simp

theorem joinHyphen_cons_cons (g : List Char) (c : Char)
    (gs : List (List Char)) (h : gs ≠ []) :
    joinHyphen ((c :: g) :: gs) = c :: joinHyphen (g :: gs) := by
  cases gs with
  | nil => exact absurd rfl h
  | cons g2 gs2 => simp [joinHyphen]

/-- Joining the hyphen-split groups back with hyphens is the identity,
as the Python `'-'.join(s.split('-'))` is. -/
theorem joinHyphen_splitHyphen (l : List Char) :
    joinHyphen (splitHyphen l) = l := by
  induction l with
  | nil => rfl
  | cons c rest ih =>
    unfold splitHyphen
    by_cases h : c == '-'
    · simp only [h, if_pos]
      have hrest := splitHyphen_ne_nil rest
      cases hs : splitHyphen rest with
      | nil => exact absurd hs hrest
      | cons g gs =>
        rw [← hs]
        have : joinHyphen ([] :: splitHyphen rest) =
            [] ++ '-' :: joinHyphen (splitHyphen rest) := by
          rw [hs]; simp [joinHyphen]
        rw [this, ih]
        simp only [List.nil_append]
        have hc : c = '-' := by simpa using h
        rw [hc]
    · simp only [h, Bool.false_eq_true, if_false]
      have hrest := splitHyphen_ne_nil rest
      cases hs : splitHyphen rest with
      | nil => exact absurd hs hrest
      | cons g gs =>
        cases gs with
        | nil =>
          simp only [joinHyphen]
          have : joinHyphen (splitHyphen rest) = rest := ih
          rw [hs] at this
          simp only [joinHyphen] at this
          rw [this]
        | cons g2 gs2 =>
          rw [joinHyphen_cons_cons g c (g2 :: gs2) (by simp)]
          have : joinHyphen (splitHyphen rest) = rest := ih
          rw [hs] at this
          rw [this]

/-- Python `c.isalnum()`, on the ASCII range (every slug in scope is
ASCII). -/
def pyIsAlnum (c : Char) : Bool := c.isAlpha || c.isDigit

/-- The logger.warning events emitted while normalizing the model output
in generate_image_prompts_and_slugs. The countMismatch constructor exists
so that the spec-claimed count-mismatch soft warning is expressible; the
embedded source emits warnings only through the other two constructors. -/
inductive NormWarn where
  | singleObjectWrapped
  | skippedInvalidItem (item : PyVal)
  | countMismatch (got expected : Nat)
deriving Repr

/-- The element-validation loop of generate_image_prompts_and_slugs
(src/agents/image_prompt_openai.py, lines 175-187): an element is kept
iff it is a dict with both a prompt and a slug key; kept elements get
their slug value lowercased, filtered to alphanumerics and hyphens, and
replaced by image-i (i the number of elements kept so far) when the
cleanup empties it; other elements are skipped with a warning. A slug
value that is present but not a string hits AttributeError at .lower(),
which the except clause at line 199 re-raises as a ValueError that aborts
the whole parse. -/
def validateItems : List PyVal → List PyVal → List NormWarn →
    Except String (List PyVal × List NormWarn)
  | [], acc, ws => .ok (acc, ws)
  | item :: rest, acc, ws =>
    match item with
    | .PDict d =>
      match dictGet d "prompt", dictGet d "slug" with
      | some _, some slugVal =>
        match slugVal with
        | .PStr s =>
          let s1 := (s.data.map pyLowerChar).filter
            (fun c => pyIsAlnum c || c == '-')
          let s2 := joinHyphen (splitHyphen s1)
          let newSlug :=
            if s2.isEmpty then "image-" ++ toString acc.length
            else String.mk s2
          validateItems rest
            (acc ++ [.PDict (dictSet d "slug" (.PStr newSlug))]) ws
        | _ =>
          .error "Failed to parse image prompt and slug list from LLM response."
      | _, _ =>
        validateItems rest acc (ws ++ [.skippedInvalidItem item])
    | _ => validateItems rest acc (ws ++ [.skippedInvalidItem item])

/-- Truncation and the empty-result check after validation
(src/agents/image_prompt_openai.py, lines 189-197). -/
def finalizePromptSlugs (num_prompts : Nat)
    (r : Except String (List PyVal × List NormWarn)) :
    Except String (List PyVal × List NormWarn) :=
  match r with
  | .error e => .error e
  | .ok (validated, ws) =>
    let fin := validated.take num_prompts
    if fin.isEmpty then
      .error "LLM response parsed, but yielded no valid prompt and slug pairs."
    else .ok (fin, ws)

/-- The parse-classify-validate-truncate section of
generate_image_prompts_and_slugs (src/agents/image_prompt_openai.py,
lines 149-197), starting from the already json-parsed model output: a
list is used directly; a dict is probed for a list under the keys
results, prompts, prompt_slug_list with Python `or` semantics (first
truthy value wins); a dict that itself carries prompt and slug keys is
wrapped as a singleton with a warning; anything else is an error. -/
def promptSlugNormalize (output_data : PyVal) (num_prompts : Nat) :
    Except String (List PyVal × List NormWarn) :=
  match output_data with
  | .PList l => finalizePromptSlugs num_prompts (validateItems l [] [])
  | .PDict d =>
    let c1 := (dictGet d "results").getD .PNone
    let c2 := (dictGet d "prompts").getD .PNone
    let c3 := (dictGet d "prompt_slug_list").getD .PNone
    let cand := if pyTruthy c1 then c1 else if pyTruthy c2 then c2 else c3
    match cand with
    | .PList l => finalizePromptSlugs num_prompts (validateItems l [] [])
    | _ =>
      if hasKey d "prompt" && hasKey d "slug" then
        finalizePromptSlugs num_prompts
          (validateItems [.PDict d] [] [.singleObjectWrapped])
      else
        .error "LLM response was a dictionary but did not contain the expected prompt and slug data structure."
  | _ => .error "LLM response was not a list or expected dictionary format."

/-- A prompt/slug element as the model is asked to produce it. -/
def psItem (p s : String) : PyVal :=
  .PDict [("prompt", .PStr p), ("slug", .PStr s)]

/-- Shape every element retained by the validation loop actually has: a
dict that carries a prompt key and whose slug value is a string. -/
def goodPromptSlug (item : PyVal) : Prop :=
  ∃ d, item = PyVal.PDict d ∧ hasKey d "prompt" = true ∧
    ∃ s, dictGet d "slug" = some (.PStr s)

theorem validateItems_good (raw : List PyVal) :
    ∀ (acc : List PyVal) (ws : List NormWarn) (validated : List PyVal)
      (ws2 : List NormWarn),
    (∀ it ∈ acc, goodPromptSlug it) →
    validateItems raw acc ws = .ok (validated, ws2) →
    ∀ it ∈ validated, goodPromptSlug it := by
  induction raw with
  | nil =>
    intro acc ws validated ws2 hacc h
    simp only [validateItems, Except.ok.injEq, Prod.mk.injEq] at h
    obtain ⟨h1, _⟩ := h
    subst h1
    exact hacc
  | cons item rest ih =>
    intro acc ws validated ws2 hacc h
    cases item with
    | PDict d =>
      simp only [validateItems] at h
      cases hp : dictGet d "prompt" with
      | none =>
        rw [hp] at h
        exact ih _ _ _ _ hacc h
      | some pv =>
        rw [hp] at h
        cases hs : dictGet d "slug" with
        | none =>
          rw [hs] at h
          exact ih _ _ _ _ hacc h
        | some sv =>
          rw [hs] at h
          cases sv with
          | PStr s =>
            refine ih _ _ _ _ ?_ h
            intro it hit
            rw [List.mem_append] at hit
            rcases hit with hold | hnew
            · exact hacc it hold
            · rw [List.mem_singleton] at hnew
              subst hnew
              refine ⟨_, rfl, ?_, ?_⟩
              · unfold hasKey
                rw [dictGet_dictSet_ne d "slug" "prompt" _ (by decide)]
                rw [hp]
                rfl
              · exact ⟨_, dictGet_dictSet_self d "slug" _⟩
          | PNone => exact absurd h (by simp)
          | PBool b => exact absurd h (by simp)
          | PInt n => exact absurd h (by simp)
          | PList l => exact absurd h (by simp)
          | PDict d2 => exact absurd h (by simp)
          | PEllipsis => exact absurd h (by simp)
    | PNone => exact ih _ _ _ _ hacc h
    | PBool b => exact ih _ _ _ _ hacc h
    | PInt n => exact ih _ _ _ _ hacc h
    | PStr s => exact ih _ _ _ _ hacc h
    | PList l => exact ih _ _ _ _ hacc h
    | PEllipsis => exact ih _ _ _ _ hacc h

theorem finalizePromptSlugs_ok (n : Nat)
    (r : Except String (List PyVal × List NormWarn))
    (res : List PyVal) (ws : List NormWarn)
    (h : finalizePromptSlugs n r = .ok (res, ws)) :
    ∃ v, r = .ok (v, ws) ∧ res = v.take n := by
  unfold finalizePromptSlugs at h
  cases r with
  | error e => exact absurd h (by simp)
  | ok p =>
    obtain ⟨v, w⟩ := p
    simp only at h
    by_cases he : (v.take n).isEmpty
    · rw [if_pos he] at h
      exact absurd h (by simp)
    · rw [if_neg he] at h
      simp only [Except.ok.injEq, Prod.mk.injEq] at h
      obtain ⟨h1, h2⟩ := h
      subst h2
      exact ⟨v, rfl, h1.symm⟩

/-- C7 amended: every element of a normalized result is a dict carrying
the prompt key and a string-valued slug; elements that are not dicts or
lack a key are dropped rather than aborting. (The counterexample theorem
shows the original stronger claim fails: prompt values are not
type-checked, and a present but non-string slug aborts the whole batch.) -/
theorem promptSlugNormalize_element_shape (data : PyVal) (n : Nat)
    (res : List PyVal) (ws : List NormWarn)
    (h : promptSlugNormalize data n = .ok (res, ws)) :
    ∀ item ∈ res, goodPromptSlug item := by
  have main : ∀ (l : List PyVal) (ws0 : List NormWarn),
      finalizePromptSlugs n (validateItems l [] ws0) = .ok (res, ws) →
      ∀ item ∈ res, goodPromptSlug item := by
    intro l ws0 hf item hitem
    obtain ⟨v, hv, hres⟩ := finalizePromptSlugs_ok n _ res ws hf
    have hgood := validateItems_good l [] ws0 v ws (by intro it hit; simp at hit) hv
    subst hres
    exact hgood item (List.take_subset n v hitem)
  cases data with
  | PList l => exact main l [] h
  | PDict d =>
    simp only [promptSlugNormalize] at h
    split at h
    · exact main _ [] h
    · split at h
      · exact main _ [.singleObjectWrapped] h
      · exact absurd h (by simp)
  | PNone => exact absurd h (by simp [promptSlugNormalize])
  | PBool b => exact absurd h (by simp [promptSlugNormalize])
  | PInt n2 => exact absurd h (by simp [promptSlugNormalize])
  | PStr s => exact absurd h (by simp [promptSlugNormalize])
  | PEllipsis => exact absurd h (by simp [promptSlugNormalize])

/-- C7 witness: the shape invariant applied to a concrete normalization
run with one valid and one invalid element. -/
theorem promptSlugNormalize_element_shape_witness :
    promptSlugNormalize (.PList [psItem "a prompt" "a-slug", .PStr "junk"]) 2 =
      .ok ([psItem "a prompt" "a-slug"],
           [.skippedInvalidItem (.PStr "junk")]) ∧
    goodPromptSlug (psItem "a prompt" "a-slug") := by
  refine ⟨rfl, ?_⟩
  exact promptSlugNormalize_element_shape
    (.PList [psItem "a prompt" "a-slug", .PStr "junk"]) 2
    [psItem "a prompt" "a-slug"] [.skippedInvalidItem (.PStr "junk")]
    rfl (psItem "a prompt" "a-slug") (by simp)

/-- C7 counterexample: the validation loop checks key presence only, so a
dict whose prompt is the integer 1 is retained against the claimed
string-typing of required fields; and a dict whose slug is present but
not a string aborts the whole batch (including the following valid
element) instead of being dropped. -/
theorem promptSlugNormalize_type_counterexample :
    promptSlugNormalize (.PList [.PDict [("prompt", .PInt 1), ("slug", .PStr "ok")]]) 3 =
      .ok ([.PDict [("prompt", .PInt 1), ("slug", .PStr "ok")]], []) ∧
    promptSlugNormalize
        (.PList [.PDict [("prompt", .PStr "p"), ("slug", .PInt 5)],
                 psItem "q" "good-slug"]) 2 =
      .error "Failed to parse image prompt and slug list from LLM response." :=
  ⟨rfl, rfl⟩

/-- C6 counterexample: with one valid element and three requested, the
normalizer succeeds with one element but its emitted warning list is
empty - no count-mismatch soft warning is recorded anywhere in this
function. -/
theorem promptSlugNormalize_no_mismatch_warning :
    promptSlugNormalize (.PList [psItem "p1" "alpha"]) 3 =
      .ok ([psItem "p1" "alpha"], ([] : List NormWarn)) := rfl

/-- C6 amended: requesting 3 items from 5 valid elements yields exactly
the first 3 in order; from 1 valid element the result has exactly that 1
element and the run still succeeds (the shortfall is tolerated silently,
with no count-mismatch warning emitted). -/
theorem promptSlugNormalize_count_enforcement :
    promptSlugNormalize (.PList [psItem "p1" "s1", psItem "p2" "s2",
        psItem "p3" "s3", psItem "p4" "s4", psItem "p5" "s5"]) 3 =
      .ok ([psItem "p1" "s1", psItem "p2" "s2", psItem "p3" "s3"], []) ∧
    promptSlugNormalize (.PList [psItem "solo" "only-one"]) 3 =
      .ok ([psItem "solo" "only-one"], []) :=
  ⟨rfl, rfl⟩

/-! ### Record store: DynamoDBHelper and its backing table -/

/-- The two DynamoDB tables and a clock. The wall clock read by
`int(time.time())` is modelled as a counter advanced at each update
call. -/
structure World where
  posts : String → Option PyDict
  settingsTable : String → Option PyDict
  now : Nat

/-- How an update expression refers to an attribute: directly by name, or
through an ExpressionAttributeNames alias. -/
inductive NameRef where
  | raw (name : String)
  | placeholder (tag : String)
deriving Repr, DecidableEq

/-- Python `str.upper`, on the ASCII range (attribute names are ASCII). -/
def pyUpperChar (c : Char) : Char :=
  if 'a' ≤ c ∧ c ≤ 'z' then Char.ofNat (c.toNat - 32) else c

/-- The reserved-word check of update_post_item
(src/utils/dynamodb_helper.py, line 98): `key.upper() in [...]`. -/
def isReservedAttr (k : String) : Bool :=
  ["STATUS", "DATA", "KEY", "VALUE", "NAME"].contains
    (String.mk (k.data.map pyUpperChar))

/-- The SET-expression parts and ExpressionAttributeValues built by the
loop of update_post_item (lines 94-107), one pair per attribute, with
value placeholder :vi and, for reserved attribute names, name
placeholder #ki. -/
def buildParts (i : Nat) : PyDict → List (NameRef × String) × List (String × PyVal)
  | [] => ([], [])
  | (k, v) :: rest =>
    let pv := buildParts (i + 1) rest
    let valp := ":v" ++ toString i
    let part :=
      if isReservedAttr k then (NameRef.placeholder ("#k" ++ toString i), valp)
      else (NameRef.raw k, valp)
    (part :: pv.1, (valp, v) :: pv.2)

/-- The expression_attribute_names aliases built by the same loop (lines
101-103). -/
def buildNames (i : Nat) : PyDict → List (String × String)
  | [] => []
  | (k, _) :: rest =>
    if isReservedAttr k then ("#k" ++ toString i, k) :: buildNames (i + 1) rest
    else buildNames (i + 1) rest

/-- Modelled contract of the external DynamoDB update_item call: a SET
expression may name attributes directly or through a #placeholder that
must be defined in the request's ExpressionAttributeNames; an undefined
placeholder, a direct name that is a reserved word of the expression
language, or a non-string key value, is rejected with a
ValidationException (a ClientError). An accepted update merges the
attributes onto the item, creating the item if absent (upsert). The
reserved-word set here is the subset of DynamoDB's list relevant to this
code base, matching the check in update_post_item. -/
def ddbUpdateItem (w : World) (key : PyVal) (parts : List (NameRef × String))
    (values : List (String × PyVal)) (names : List (String × String)) :
    Except String World :=
  match key with
  | .PStr pid =>
    if parts.all (fun p =>
        match p.1 with
        | .raw n => !isReservedAttr n
        | .placeholder t => (names.find? (fun kv => kv.1 = t)).isSome) then
      let resolved : List (String × PyVal) := parts.filterMap (fun p =>
        let nm := match p.1 with
          | .raw n => some n
          | .placeholder t => (names.find? (fun kv => kv.1 = t)).map (·.2)
        match nm, (values.find? (fun kv => kv.1 = p.2)).map (·.2) with
        | some n, some v => some (n, v)
        | _, _ => none)
      let base := (w.posts pid).getD []
      let updated := resolved.foldl (fun r kv => dictSet r kv.1 kv.2) base
      .ok { w with posts := fun q => if q = pid then some updated else w.posts q }
    else .error "ValidationException"
  | _ => .error "ValidationException"

/-- DynamoDBHelper.get_post (src/utils/dynamodb_helper.py, lines 45-58);
a non-string key makes the ClientError path return None. -/
def get_post (w : World) (post_id : PyVal) : Option PyDict :=
  match post_id with
  | .PStr pid => w.posts pid
  | _ => none

/-- DynamoDBHelper.get_website_settings (lines 60-73). -/
def get_website_settings (w : World) (website_id : PyVal) : Option PyDict :=
  match website_id with
  | .PStr wid => w.settingsTable wid
  | _ => none

/-- DynamoDBHelper.update_post_item (src/utils/dynamodb_helper.py, lines
75-130). An empty attribute map returns True before anything else
happens. Otherwise updateTimestamp is stamped, the SET expression,
value map and name aliases are built - but update_kwargs (lines 112-117)
passes only Key, UpdateExpression, ExpressionAttributeValues and
ReturnValues, so the built name aliases never reach the backend; a
ClientError from the backend is caught and turned into False. -/
def update_post_item (w : World) (post_id : PyVal) (attrs : PyDict) :
    Bool × World :=
  if attrs.isEmpty then (true, w)
  else
    let attrs1 := dictSet attrs "updateTimestamp" (.PInt (w.now : Int))
    let w1 : World := { w with now := w.now + 1 }
    let pv := buildParts 0 attrs1
    let _names := buildNames 0 attrs1
    match ddbUpdateItem w1 post_id pv.1 pv.2 [] with
    | .ok w2 => (true, w2)
    | .error _ => (false, w1)

/-- Build a world from finite post/settings tables, for concrete runs. -/
def mkWorld (posts : List (String × PyDict)) (settings : List (String × PyDict))
    (now : Nat) : World where
  posts := fun q => (posts.find? (fun kv => kv.1 = q)).map (·.2)
  settingsTable := fun q => (settings.find? (fun kv => kv.1 = q)).map (·.2)
  now := now

/-- C10: updating a post with an empty attribute map returns True and
leaves the world - every post record, updateTimestamp included -
entirely unchanged. -/
theorem update_post_item_empty_noop (w : World) (post_id : PyVal) :
    update_post_item w post_id [] = (true, w) := rfl

/-- C4: updating the reserved-word-named attribute "name" fails. The
helper builds the #k0 alias for it but omits ExpressionAttributeNames
from the issued request, so the backend rejects the update, the helper
returns False and the table is unchanged; the same request with the
built aliases actually attached would succeed. -/
theorem update_post_item_reserved_alias_dropped :
    (update_post_item (mkWorld [("p1", [("postId", .PStr "p1")])] [] 100)
        (.PStr "p1") [("name", .PStr "x")]).1 = false ∧
    (update_post_item (mkWorld [("p1", [("postId", .PStr "p1")])] [] 100)
        (.PStr "p1") [("name", .PStr "x")]).2.posts "p1" =
      some [("postId", .PStr "p1")] ∧
    (∃ w2, ddbUpdateItem
        { mkWorld [("p1", [("postId", .PStr "p1")])] [] 100 with now := 101 }
        (.PStr "p1")
        (buildParts 0 [("name", .PStr "x"), ("updateTimestamp", .PInt 100)]).1
        (buildParts 0 [("name", .PStr "x"), ("updateTimestamp", .PInt 100)]).2
        (buildNames 0 [("name", .PStr "x"), ("updateTimestamp", .PInt 100)]) =
      .ok w2) :=
  ⟨rfl, rfl, ⟨_, rfl⟩⟩

/-! ### ServiceError and the generic stage workflow of BaseContentService -/

/-- ServiceError (src/utils/errors.py): message, HTTP-style status code
(default 500), service name (default "UnknownService"), detail payload
(default None). The message is a PyVal because metadata_service.py
passes the Ellipsis object for it. -/
structure SErr where
  message : PyVal
  status_code : Nat
  service_name : String
  details : PyVal
deriving Repr

/-- The stage-specific declarations a BaseContentService subclass makes:
status_prefix (renamed statusTag here), output_uri_db_key (output_key),
the service name, whether the subclass overrides _update_db_uri to skip
the standard record write (metadata and image-prompt services do), and
the _select_agent/_call_agent pair fused into one step (in the source
_select_agent merely returns the function _call_agent then invokes, and
neither touches the record store), plus _save_agent_output, which may
write either store. -/
structure StageSpec where
  statusTag : String
  output_key : String
  service_name : String
  inline_output : Bool
  call_agent : PyDict → PyDict → PyDict → (String → Option String) →
    Except SErr PyVal
  save_output : PyVal → PyVal → PyVal → World → Option String × World

/-- The event dicts handed to process_request carry the two ids. -/
def mkEvent (pid wid : String) : PyDict :=
  [("postId", .PStr pid), ("websiteId", .PStr wid)]

/-- The except-handler of process_request (src/services/base_service.py,
lines 157-165): writes status_prefix_FAILED (ignoring the Bool result)
and re-raises the ServiceError. -/
def failAndRaise (st : StageSpec) (post_id : PyVal) (w : World) (e : SErr) :
    Except SErr PyDict × World :=
  let w2 := (update_post_item w post_id
    [("postStatus", .PStr (st.statusTag ++ "_FAILED"))]).2
  (.error e, w2)

/-- BaseContentService.process_request (src/services/base_service.py,
lines 66-165), with _update_status and _update_db_uri (lines 170-188)
inlined; both ignore the Bool returned by update_post_item. Error
messages keep the source wording minus the interpolated identifiers. -/
def process_request (st : StageSpec) (event : PyDict) (w : World)
    (s3 : String → Option String) : Except SErr PyDict × World :=
  let post_id := (dictGet event "postId").getD .PNone
  let website_id := (dictGet event "websiteId").getD .PNone
  if !pyTruthy post_id || !pyTruthy website_id then
    (.error ⟨.PStr "Missing required input data for service.", 400,
      st.service_name, .PNone⟩, w)
  else
    let w1 := (update_post_item w post_id
      [("postStatus", .PStr (st.statusTag ++ "_STARTED"))]).2
    match get_post w1 post_id with
    | none =>
      failAndRaise st post_id w1
        ⟨.PStr "Post not found.", 404, st.service_name, .PNone⟩
    | some post_item =>
      let widFromDb := (dictGet post_item "websiteId").getD .PNone
      if !pyTruthy widFromDb then
        failAndRaise st post_id w1
          ⟨.PStr "Post item is missing websiteId attribute.", 500,
            st.service_name, .PNone⟩
      else if !pyEq website_id widFromDb then
        failAndRaise st post_id w1
          ⟨.PStr "Access denied: Website ID mismatch.", 403,
            st.service_name, .PNone⟩
      else
        match get_website_settings w1 website_id with
        | none =>
          failAndRaise st post_id w1
            ⟨.PStr "Website settings not found.", 404, st.service_name, .PNone⟩
        | some website_settings =>
          match st.call_agent post_item website_settings event s3 with
          | .error e => failAndRaise st post_id w1 e
          | .ok .PNone =>
            failAndRaise st post_id w1
              ⟨.PStr "Agent returned None or empty output.", 500,
                st.service_name, .PNone⟩
          | .ok agent_output =>
            let so := st.save_output website_id post_id agent_output w1
            let s3_uri := so.1.getD ""
            if s3_uri = "" then
              failAndRaise st post_id so.2
                ⟨.PStr "Failed to save agent output to S3.", 500,
                  st.service_name, .PNone⟩
            else
              let w3 :=
                if st.inline_output then so.2
                else (update_post_item so.2 post_id
                  [(st.output_key, .PStr s3_uri)]).2
              let w4 := (update_post_item w3 post_id
                [("postStatus", .PStr (st.statusTag ++ "_COMPLETE"))]).2
              (.ok [("message",
                      .PStr (st.service_name ++ " processed successfully.")),
                    ("postId", post_id),
                    (st.output_key, .PStr s3_uri)], w4)

/-! ### MetadataService -/

/-- Result of one _call_agent run together with whether the external
agent function was ever invoked. -/
structure AgentCallTrace where
  result : Except SErr PyVal
  agentCalled : Bool
deriving Repr

/-- MetadataService._call_agent (src/services/metadata_service.py, lines
36-64). When refinedArticleUri is missing or falsy the source executes
`raise ServiceError(...)` - literally passing the Ellipsis object as the
message - so the raised error keeps the defaults status_code 500 and
service_name "UnknownService". The same placeholder raise follows a
failed blob-store read. A truthy non-string uri would hit AttributeError
inside read_text_file; it is modelled as the generic wrapped 500. -/
def metadata_call_agent (s3read : String → Option String)
    (agent : PyDict → PyDict → PyDict → PyVal)
    (post_item website_settings : PyDict) : AgentCallTrace :=
  let uri := (dictGet post_item "refinedArticleUri").getD .PNone
  if !pyTruthy uri then
    { result := .error ⟨.PEllipsis, 500, "UnknownService", .PNone⟩,
      agentCalled := false }
  else
    match uri with
    | .PStr u =>
      match s3read u with
      | none =>
        { result := .error ⟨.PEllipsis, 500, "UnknownService", .PNone⟩,
          agentCalled := false }
      | some text =>
        { result := .ok (agent post_item website_settings
            [("refined_article_content", .PStr text)]),
          agentCalled := true }
    | _ =>
      { result := .error ⟨.PStr "AttributeError", 500, "MetadataService",
          .PNone⟩,
        agentCalled := false }

/-- MetadataService._save_agent_output (lines 67-86): a non-dict output
fails; otherwise the metadata dict is written inline on the post record
and the placeholder locator "DynamoDB_Updated" signals success. -/
def metadata_save_agent_output (post_id : PyVal) (agent_output : PyVal)
    (w : World) : Option String × World :=
  match agent_output with
  | .PDict d =>
    let r := update_post_item w post_id [("metadata", .PDict d)]
    if r.1 then (some "DynamoDB_Updated", r.2) else (none, r.2)
  | _ => (none, w)

/-- The MetadataService stage declarations (src/services/metadata_service.py),
generic over the external LLM agent. -/
def metadataStage (agent : PyDict → PyDict → PyDict → PyVal) : StageSpec where
  statusTag := "METADATA"
  output_key := "metadata"
  service_name := "MetadataService"
  inline_output := true
  call_agent := fun post_item settings _event s3 =>
    (metadata_call_agent s3 agent post_item settings).result
  save_output := fun _wid pid out w => metadata_save_agent_output pid out w

/-- Computation of a single-status-key record update, used to step
symbolic process_request runs. -/
theorem update_post_item_postStatus (w : World) (pid : String) (v : PyVal) :
    update_post_item w (.PStr pid) [("postStatus", v)] =
      (true,
       { posts := fun q =>
           if q = pid then
             some (dictSet (dictSet ((w.posts pid).getD []) "postStatus" v)
               "updateTimestamp" (.PInt (w.now : Int)))
           else w.posts q,
         settingsTable := w.settingsTable,
         now := w.now + 1 }) := rfl

/-- C1: on a post item with no refinedArticleUri the metadata stage's
_call_agent fails before the agent is ever invoked, but the raised
ServiceError is the placeholder `raise ServiceError(...)`: its message is
the Ellipsis object and its status code the default 500, not the
InvalidRequest 400 the spec describes (and which RefineService and
ImagePromptService raise for the same condition). -/
theorem metadata_missing_refined_uri_bug :
    metadata_call_agent (fun _ => none) (fun _ _ _ => .PNone)
        [("postId", .PStr "P1")] [] =
      { result := .error ⟨.PEllipsis, 500, "UnknownService", .PNone⟩,
        agentCalled := false } := rfl

/-- C5 amended: for a post whose stored websiteId is present and
non-empty, an ownership mismatch makes process_request raise Forbidden
(403), and the only record mutations across the call are the two status
writes: every other post is untouched, and on the target post every
attribute other than postStatus and updateTimestamp - in particular the
stage's output_key - keeps its prior value. (The counterexample theorem
shows the unrestricted claim fails: a post whose websiteId is the empty
string mismatches every requester yet draws a 500, not a 403.) -/
theorem process_request_ownership_frame
    (st : StageSpec) (w : World) (s3 : String → Option String)
    (pid wid : String) (rec : PyDict) (dbw : PyVal)
    (hpid : pid ≠ "") (hwid : wid ≠ "")
    (hpost : w.posts pid = some rec)
    (hdbw : dictGet rec "websiteId" = some dbw)
    (htr : pyTruthy dbw = true)
    (hne : pyEq (.PStr wid) dbw = false)
    (hout1 : st.output_key ≠ "postStatus")
    (hout2 : st.output_key ≠ "updateTimestamp") :
    ∃ e rec2,
      (process_request st (mkEvent pid wid) w s3).1 = .error e ∧
      e.status_code = 403 ∧
      (∀ q, q ≠ pid →
        (process_request st (mkEvent pid wid) w s3).2.posts q = w.posts q) ∧
      (process_request st (mkEvent pid wid) w s3).2.posts pid = some rec2 ∧
      (∀ k, k ≠ "postStatus" → k ≠ "updateTimestamp" →
        dictGet rec2 k = dictGet rec k) ∧
      dictGet rec2 st.output_key = dictGet rec st.output_key := by
  have htr1 : pyTruthy (.PStr pid) = true := by
    simp only [pyTruthy, bne_iff_ne, ne_eq]
    exact hpid
  have htr2 : pyTruthy (.PStr wid) = true := by
    simp only [pyTruthy, bne_iff_ne, ne_eq]
    exact hwid
  have hd1 : dictGet (mkEvent pid wid) "postId" = some (.PStr pid) := rfl
  have hd2 : dictGet (mkEvent pid wid) "websiteId" = some (.PStr wid) := rfl
  have hwb : ∀ v1 v2, dictGet (dictSet (dictSet rec "postStatus" v1)
      "updateTimestamp" v2) "websiteId" = some dbw := by
    intro v1 v2
    rw [dictGet_dictSet_ne _ _ _ _ (by decide),
      dictGet_dictSet_ne _ _ _ _ (by decide), hdbw]
  have hcomp : process_request st (mkEvent pid wid) w s3 =
      failAndRaise st (.PStr pid)
        { posts := fun q =>
            if q = pid then
              some (dictSet (dictSet rec "postStatus"
                  (.PStr (st.statusTag ++ "_STARTED")))
                "updateTimestamp" (.PInt (w.now : Int)))
            else w.posts q,
          settingsTable := w.settingsTable,
          now := w.now + 1 }
        ⟨.PStr "Access denied: Website ID mismatch.", 403,
          st.service_name, .PNone⟩ := by
    unfold process_request
    simp only [hd1, hd2, Option.getD_some, htr1, htr2, Bool.not_true,
      Bool.or_self, Bool.false_eq_true, if_false,
      update_post_item_postStatus, get_post, hpost, if_pos]
    simp only [hwb, Option.getD_some, htr, Bool.not_true,
      Bool.false_eq_true, if_false, hne, Bool.not_false, if_true]
  refine ⟨⟨.PStr "Access denied: Website ID mismatch.", 403,
      st.service_name, .PNone⟩,
    dictSet (dictSet (dictSet (dictSet rec "postStatus"
        (.PStr (st.statusTag ++ "_STARTED")))
      "updateTimestamp" (.PInt (w.now : Int)))
      "postStatus" (.PStr (st.statusTag ++ "_FAILED")))
      "updateTimestamp" (.PInt ((w.now + 1 : Nat) : Int)), ?_, rfl, ?_, ?_, ?_, ?_⟩
  · rw [hcomp]
    rfl
  · intro q hq
    rw [hcomp]
    unfold failAndRaise
    rw [update_post_item_postStatus]
    simp only [if_neg hq]
  · rw [hcomp]
    unfold failAndRaise
    rw [update_post_item_postStatus]
    simp only [if_pos rfl, if_true, Option.getD_some]
  · intro k hk1 hk2
    rw [dictGet_dictSet_ne _ _ _ _ hk2, dictGet_dictSet_ne _ _ _ _ hk1,
      dictGet_dictSet_ne _ _ _ _ hk2, dictGet_dictSet_ne _ _ _ _ hk1]
  · rw [dictGet_dictSet_ne _ _ _ _ hout2, dictGet_dictSet_ne _ _ _ _ hout1,
      dictGet_dictSet_ne _ _ _ _ hout2, dictGet_dictSet_ne _ _ _ _ hout1]

/-- C5 witness: the ownership-frame theorem applied to the metadata stage
on a concrete post owned by w2 and requested as w1. -/
theorem process_request_ownership_frame_witness :
    ∃ e rec2,
      (process_request (metadataStage (fun _ _ _ => .PNone))
          (mkEvent "p1" "w1")
          (mkWorld [("p1", [("postId", .PStr "p1"), ("websiteId", .PStr "w2"),
            ("metadata", .PStr "keep")])] [] 5) (fun _ => none)).1 =
        .error e ∧
      e.status_code = 403 ∧
      (∀ q, q ≠ "p1" →
        (process_request (metadataStage (fun _ _ _ => .PNone))
            (mkEvent "p1" "w1")
            (mkWorld [("p1", [("postId", .PStr "p1"),
              ("websiteId", .PStr "w2"), ("metadata", .PStr "keep")])] [] 5)
            (fun _ => none)).2.posts q =
          (mkWorld [("p1", [("postId", .PStr "p1"), ("websiteId", .PStr "w2"),
            ("metadata", .PStr "keep")])] [] 5).posts q) ∧
      (process_request (metadataStage (fun _ _ _ => .PNone))
          (mkEvent "p1" "w1")
          (mkWorld [("p1", [("postId", .PStr "p1"), ("websiteId", .PStr "w2"),
            ("metadata", .PStr "keep")])] [] 5) (fun _ => none)).2.posts "p1" =
        some rec2 ∧
      (∀ k, k ≠ "postStatus" → k ≠ "updateTimestamp" →
        dictGet rec2 k = dictGet [("postId", .PStr "p1"),
          ("websiteId", .PStr "w2"), ("metadata", .PStr "keep")] k) ∧
      dictGet rec2 (metadataStage (fun _ _ _ => .PNone)).output_key =
        dictGet [("postId", .PStr "p1"), ("websiteId", .PStr "w2"),
          ("metadata", .PStr "keep")]
          (metadataStage (fun _ _ _ => .PNone)).output_key :=
  process_request_ownership_frame (metadataStage (fun _ _ _ => .PNone))
    (mkWorld [("p1", [("postId", .PStr "p1"), ("websiteId", .PStr "w2"),
      ("metadata", .PStr "keep")])] [] 5) (fun _ => none) "p1" "w1"
    [("postId", .PStr "p1"), ("websiteId", .PStr "w2"),
      ("metadata", .PStr "keep")] (.PStr "w2")
    (by decide) (by decide) rfl rfl rfl (by simp [pyEq]) (by decide) (by decide)

/-- C5 counterexample: a post whose stored websiteId is the empty string
mismatches the requesting website w1, yet process_request raises the
missing-websiteId ServiceError with status 500, not Forbidden 403. -/
theorem process_request_forbidden_counterexample :
    (process_request (metadataStage (fun _ _ _ => .PNone)) (mkEvent "p1" "w1")
        (mkWorld [("p1", [("postId", .PStr "p1"), ("websiteId", .PStr "")])]
          [] 0)
        (fun _ => none)).1 =
      .error ⟨.PStr "Post item is missing websiteId attribute.", 500,
        "MetadataService", .PNone⟩ := rfl

/-! ### ResearchService -/

/-- What an exception propagating out of process_research_request can
be: an AttributeError from a missing helper method, a TypeError from a
call with the wrong signature, or a raised ServiceError. -/
inductive PyRaise where
  | attributeError (missing : String)
  | typeError (msg : String)
  | serviceError (e : SErr)
deriving Repr

/-- The methods the DynamoDBHelper class actually defines
(src/utils/dynamodb_helper.py): get_post, get_website_settings and
update_post_item - and nothing else. ResearchService also invokes
update_post_status and update_post_research_uri on it. -/
def dynamoDBHelperDefines (m : String) : Bool :=
  ["get_post", "get_website_settings", "update_post_item"].contains m

/-- Python attribute resolution of update_post_status on DynamoDBHelper:
the class does not define it (see dynamoDBHelperDefines), so the lookup
raises AttributeError; modelled as none. -/
def update_post_status_resolved :
    Option (World → String → String → Bool × World) := none

/-- Python attribute resolution of update_post_research_uri on
DynamoDBHelper: likewise undefined, modelled as none. -/
def update_post_research_uri_resolved :
    Option (World → String → String → Bool × World) := none

/-- The except handler of process_research_request
(src/services/research_service.py, lines 124-134): when post_id is
truthy it calls db_helper.update_post_status again - so with the method
missing the AttributeError from that lookup propagates instead of the
original error - and otherwise re-raises ServiceErrors as they are and
wraps anything else as a 500 ServiceError. -/
def researchExceptHandler
    (upd_status : Option (World → String → String → Bool × World))
    (post_id : String) (w : World) (e : PyRaise) :
    Except PyRaise PyDict × World :=
  if post_id = "" then
    match e with
    | .serviceError se => (.error (.serviceError se), w)
    | _ => (.error (.serviceError ⟨.PStr
        "An unexpected error occurred during research processing.", 500,
        "ResearchService", .PNone⟩), w)
  else
    match upd_status with
    | none => (.error (.attributeError "update_post_status"), w)
    | some f =>
      let w2 := (f w post_id "RESEARCH_FAILED").2
      match e with
      | .serviceError se => (.error (.serviceError se), w2)
      | _ => (.error (.serviceError ⟨.PStr
          "An unexpected error occurred during research processing.", 500,
          "ResearchService", .PNone⟩), w2)

/-- ResearchService.process_research_request
(src/services/research_service.py, lines 35-134), parameterized over the
resolved optional helper methods. Step 1 resolves
db_helper.update_post_status; step 4 (lines 78-83) calls the research
agent with only blog_title and website_settings, while
generate_research_draft (src/agents/research_openai.py, line 20) also
requires post_id, website_id and bucket_name, so that call raises
TypeError before the agent body runs; the later save and update steps
are unreachable. -/
def process_research_request_with
    (upd_status : Option (World → String → String → Bool × World))
    (_upd_research_uri : Option (World → String → String → Bool × World))
    (w : World) (website_id post_id : String) :
    Except PyRaise PyDict × World :=
  match upd_status with
  | none => researchExceptHandler upd_status post_id w
      (.attributeError "update_post_status")
  | some f =>
    let w1 := (f w post_id "RESEARCH_STARTED").2
    match get_post w1 (.PStr post_id) with
    | none => researchExceptHandler upd_status post_id w1
        (.serviceError ⟨.PStr "Post not found.", 404, "ResearchService",
          .PNone⟩)
    | some post_item =>
      let widdb := (dictGet post_item "websiteId").getD .PNone
      let title := (dictGet post_item "blogTitle").getD .PNone
      if !pyTruthy widdb then
        researchExceptHandler upd_status post_id w1
          (.serviceError ⟨.PStr "Post item is missing websiteId attribute.",
            500, "ResearchService", .PNone⟩)
      else if !pyTruthy title then
        researchExceptHandler upd_status post_id w1
          (.serviceError ⟨.PStr "Post item is missing blogTitle attribute.",
            500, "ResearchService", .PNone⟩)
      else if !pyEq (.PStr website_id) widdb then
        researchExceptHandler upd_status post_id w1
          (.serviceError ⟨.PStr "Access denied: Website ID mismatch.", 403,
            "ResearchService", .PNone⟩)
      else
        match get_website_settings w1 (.PStr website_id) with
        | none => researchExceptHandler upd_status post_id w1
            (.serviceError ⟨.PStr "Website settings not found.", 404,
              "ResearchService", .PNone⟩)
        | some _settings =>
          researchExceptHandler upd_status post_id w1
            (.typeError "generate_research_draft missing 3 required positional arguments: post_id, website_id, bucket_name")

/-- ResearchService.process_research_request as it runs against the
DynamoDBHelper of src/utils/dynamodb_helper.py. -/
def process_research_request (w : World) (website_id post_id : String) :
    Except PyRaise PyDict × World :=
  process_research_request_with update_post_status_resolved
    update_post_research_uri_resolved w website_id post_id

/-- C3: the end-to-end research scenario cannot complete. With post P1
owned by W1, blogTitle X and settings for W1 present, the very first
step of the research stage resolves db_helper.update_post_status, which
DynamoDBHelper does not define, so an AttributeError propagates (the
except handler trips over the same missing method), the world is
untouched, and the post neither gains researchArticleUri nor reaches
status RESEARCH_COMPLETE. Even past that, the agent call at step 4 omits
the required post_id, website_id and bucket_name arguments of
generate_research_draft. -/
theorem process_research_request_crashes :
    process_research_request
        (mkWorld [("P1", [("postId", .PStr "P1"), ("websiteId", .PStr "W1"),
          ("blogTitle", .PStr "X")])] [("W1", [("websiteId", .PStr "W1")])] 0)
        "W1" "P1" =
      (.error (.attributeError "update_post_status"),
        mkWorld [("P1", [("postId", .PStr "P1"), ("websiteId", .PStr "W1"),
          ("blogTitle", .PStr "X")])] [("W1", [("websiteId", .PStr "W1")])] 0) ∧
    dictGet [("postId", .PStr "P1"), ("websiteId", .PStr "W1"),
      ("blogTitle", .PStr "X")] "researchArticleUri" = none ∧
    dictGet [("postId", .PStr "P1"), ("websiteId", .PStr "W1"),
      ("blogTitle", .PStr "X")] "postStatus" = none ∧
    dynamoDBHelperDefines "update_post_status" = false ∧
    dynamoDBHelperDefines "update_post_research_uri" = false :=
  ⟨rfl, rfl, rfl, by decide, by decide⟩

/-! ### S3Helper: image download by slug -/

/-- An HTTP response as used by the image download: only its
content-type header matters before the failure point. -/
structure HttpResp where
  contentType : Option String
deriving Repr

/-- S3Helper.download_and_save_image_with_slug (src/utils/s3_helper.py,
lines 128-166). The http parameter models requests.get plus
raise_for_status, with none covering both RequestException and an HTTP
error status (first except clause: return None). After a successful
fetch, line 144 evaluates `re.sub` - but the module never imports re,
and `re` is moreover a function-local name there because the
`except ... as re` clauses bind it - so a NameError is raised at that
line, caught by the blanket `except Exception`, and the function returns
None. The slug cleanup, the images storage key and the upload that
follow it are unreachable. -/
def download_and_save_image_with_slug (http : String → Option HttpResp)
    (image_url _website_id _post_id slug : String) : Option String :=
  if image_url = "" then none
  else
    let _slug1 := if slug = "" then "image" else slug
    match http image_url with
    | none => none
    | some resp =>
      let _content_type := resp.contentType.getD "image/png"
      none

/-- C8: no invocation of download_and_save_image_with_slug ever returns
a locator - the missing `re` import makes every call that gets past the
HTTP fetch raise NameError and return None, so the claimed
websiteId/postId/images/slug.ext layout is never produced. -/
theorem download_and_save_image_with_slug_always_fails
    (http : String → Option HttpResp)
    (image_url website_id post_id slug : String) :
    download_and_save_image_with_slug http image_url website_id post_id
      slug = none := by
  unfold download_and_save_image_with_slug
  by_cases h : image_url = ""
  · simp [h]
  · simp only [if_neg h]
    cases http image_url <;> rfl
